/-
  Verification development for the ST7735 multi-display bitmap protocol.

  Shallow embedding of:
    - src/lib/SerialProtocol/SerialProtocol.cpp  (protocol state machine)
    - src/src/display_snapshot.cpp               (pixel snapshot store)

  Conventions:
    - C++ uint16_t fields are Nat values reduced mod 2^16 where the source
      performs a narrowing assignment (toUInt16), int8_t parses use toInt8.
    - C++ `int` arithmetic is Int (no overflow occurs at the magnitudes the
      protocol admits: dimensions are capped at 1000 and config fields at
      2^16, far below 2^31).
    - C++ truncating integer division on `int` is Int.tdiv; division of
      uint16_t values promoted to int is Nat division (operands nonnegative).
    - Serial output is modelled as a list of messages; display-driver side
      effects (fillScreen, drawPixel, frame drawing) are not modelled except
      in the snapshot store, where restoreToDisplay returns its draw calls.
    - Line-oriented input is modelled after lexing: each constructor of Line
      corresponds to one prefix test of the C++ dispatch (startsWith "CMD:",
      == "RESET", startsWith "FRAME:", startsWith "DISPLAY:", == "BMPStart",
      startsWith "SIZE:" with/without a comma, == "BMPEnd", other nonempty
      text, empty line), with numeric payloads already read by String::toInt.
-/
import Mathlib

namespace ST7735

/-- Narrowing assignment to a C++ uint16_t field. -/
def toUInt16 (v : Int) : Nat := (v % 65536).toNat

/-- Narrowing assignment to a C++ uint8_t field. -/
def toUInt8 (v : Int) : Nat := (v % 256).toNat

/-- Narrowing of a parsed long to int8_t (two's complement wraparound). -/
def toInt8 (v : Int) : Int := (v + 128) % 256 - 128

/-- The geometry fields of DisplayConfig (DisplayManager.h).  Identity
strings and pin assignments play no role in the verified properties and are
omitted; all fields are uint16_t in the source. -/
structure DisplayConfig where
  width : Nat
  height : Nat
  usableX : Nat
  usableY : Nat
  usableWidth : Nat
  usableHeight : Nat
  centerX : Nat
  centerY : Nat
  deriving DecidableEq, Repr

/-- Modelled from the spec: DisplayInstance::isWithinBounds is implemented in
DisplayManager.cpp, which is not part of the sources; the spec states it is
"true iff the point lies inside the calibrated usable rectangle (published
values, no session adjustment)". -/
def isWithinBounds (cfg : DisplayConfig) (x y : Int) : Bool :=
  decide ((cfg.usableX : Int) ≤ x ∧ x ≤ (cfg.usableX : Int) + cfg.usableWidth - 1 ∧
          (cfg.usableY : Int) ≤ y ∧ y ≤ (cfg.usableY : Int) + cfg.usableHeight - 1)

/-- ProtocolState (SerialProtocol.h). -/
inductive ProtocolState where
  | WAITING_FOR_DISPLAY_SELECT
  | WAITING_FOR_START
  | WAITING_FOR_SIZE
  | RECEIVING_DATA
  | WAITING_FOR_END
  | BITMAP_COMPLETE
  deriving DecidableEq, Repr

/-- One line written to the serial port.  `error` covers both sendError
output and the inline "ERROR:..." prints; `ok` the "OK:..." prints; `line`
every other informational print. -/
inductive Msg where
  | error (s : String)
  | ok (s : String)
  | line (s : String)
  deriving DecidableEq, Repr

/-- Does the output contain an ERROR line? -/
def hasError (ms : List Msg) : Bool :=
  ms.any fun m => match m with
    | Msg.error _ => true
    | _ => false

/-- A menu command, i.e. the text after the "CMD:" prefix, lexed.  Numeric
payloads carry the raw value returned by String::toInt; narrowing to the
field type happens inside the handler, as in the source. -/
inductive MenuCmd where
  | reset
  | list
  | info
  | test
  | testAll
  | frameOn
  | frameOff
  | frameColor (n : Int)
  | frameThickness (n : Int)
  | adjustTop (a : Int)
  | adjustBottom (a : Int)
  | adjustLeft (a : Int)
  | adjustRight (a : Int)
  | calibrate
  | updateConfig (vals : List Int)
  | orientation (n : Int)
  | help
  | unknown (s : String)
  deriving DecidableEq, Repr

/-- The FRAME: line variants accepted in the display-select state. -/
inductive FrameCmd where
  | on
  | off
  | color (n : Int)
  | thickness (n : Int)
  deriving DecidableEq, Repr

/-- A full trimmed input line, lexed according to the prefix tests the
handlers perform. -/
inductive Line where
  | cmd (c : MenuCmd)
  | resetLine
  | frame (f : FrameCmd)
  | display (name : String)
  | bmpStart
  | size (w h : Int)
  | sizeMalformed (s : String)
  | bmpEnd
  | other (s : String)
  | empty
  deriving DecidableEq, Repr

/-- Text of a menu command, used when a handler echoes the offending line. -/
def MenuCmd.render : MenuCmd → String
  | .reset => "RESET"
  | .list => "LIST"
  | .info => "INFO"
  | .test => "TEST"
  | .testAll => "TEST_ALL"
  | .frameOn => "FRAME_ON"
  | .frameOff => "FRAME_OFF"
  | .frameColor n => "FRAME_COLOR:" ++ toString n
  | .frameThickness n => "FRAME_THICKNESS:" ++ toString n
  | .adjustTop a => "ADJUST_TOP:" ++ toString a
  | .adjustBottom a => "ADJUST_BOTTOM:" ++ toString a
  | .adjustLeft a => "ADJUST_LEFT:" ++ toString a
  | .adjustRight a => "ADJUST_RIGHT:" ++ toString a
  | .calibrate => "CALIBRATE"
  | .updateConfig vs => "UPDATE_CONFIG:" ++ String.intercalate "," (vs.map toString)
  | .orientation n => "ORIENTATION:" ++ toString n
  | .help => "HELP"
  | .unknown s => s

/-- Text of a frame command. -/
def FrameCmd.render : FrameCmd → String
  | .on => "ON"
  | .off => "OFF"
  | .color n => "COLOR:" ++ toString n
  | .thickness n => "THICKNESS:" ++ toString n

/-- Text of a line, used when a handler echoes the offending line. -/
def Line.render : Line → String
  | .cmd c => "CMD:" ++ c.render
  | .resetLine => "RESET"
  | .frame f => "FRAME:" ++ f.render
  | .display n => "DISPLAY:" ++ n
  | .bmpStart => "BMPStart"
  | .size w h => "SIZE:" ++ toString w ++ "," ++ toString h
  | .sizeMalformed s => s
  | .bmpEnd => "BMPEnd"
  | .other s => s
  | .empty => ""

/-- The mutable state of SerialProtocol (SerialProtocol.h member fields).
The active DisplayInstance is represented by its DisplayConfig (the engine
borrows the display; UPDATE_CONFIG mutates the config through it). -/
structure Engine where
  currentState : ProtocolState
  activeDisplay : Option DisplayConfig
  bitmapWidth : Int
  bitmapHeight : Int
  currentRow : Int
  currentCol : Int
  offsetX : Int
  offsetY : Int
  lastActivity : Nat
  imageFrameEnabled : Bool
  imageFrameColor : Nat
  imageFrameThickness : Nat
  usableAreaAdjustTop : Int
  usableAreaAdjustBottom : Int
  usableAreaAdjustLeft : Int
  usableAreaAdjustRight : Int
  deriving DecidableEq, Repr

/-- SerialProtocol constructor initial values. -/
def Engine.initial : Engine where
  currentState := .WAITING_FOR_DISPLAY_SELECT
  activeDisplay := none
  bitmapWidth := 0
  bitmapHeight := 0
  currentRow := 0
  currentCol := 0
  offsetX := 0
  offsetY := 0
  lastActivity := 0
  imageFrameEnabled := true
  imageFrameColor := 65535
  imageFrameThickness := 1
  usableAreaAdjustTop := 0
  usableAreaAdjustBottom := 0
  usableAreaAdjustLeft := 0
  usableAreaAdjustRight := 0

/-- SerialProtocol::reset.  Note it clears the state, the borrowed display
and the transfer geometry, but not the frame settings, lastActivity or the
four usable-area adjustments. -/
def reset (e : Engine) : Engine :=
  { e with
    currentState := .WAITING_FOR_DISPLAY_SELECT
    activeDisplay := none
    bitmapWidth := 0
    bitmapHeight := 0
    currentRow := 0
    currentCol := 0
    offsetX := 0
    offsetY := 0 }

/-- SerialProtocol::sendError: prints the ERROR line, paints the error
screen (display effect, not modelled), then calls reset(). -/
def sendError (e : Engine) (message : String) : Engine × List Msg :=
  (reset e, [Msg.error message])

/-- SerialProtocol::validateDimensions.  MAX_DIMENSION = 1000. -/
def validateDimensions (e : Engine) (width height : Int) :
    Bool × Engine × List Msg :=
  match e.activeDisplay with
  | none =>
      let r := sendError e "No active display selected"
      (false, r.1, r.2)
  | some cfg =>
      if width ≤ 0 ∨ height ≤ 0 then
        let r := sendError e
          ("Invalid dimensions: width=" ++ toString width ++ ", height=" ++ toString height)
        (false, r.1, r.2)
      else if width > 1000 ∨ height > 1000 then
        let r := sendError e
          ("Dimensions too large: width=" ++ toString width ++ ", height=" ++ toString height)
        (false, r.1, r.2)
      else if width > (cfg.usableWidth : Int) then
        let r := sendError e
          ("Width " ++ toString width ++ " exceeds usable width " ++ toString cfg.usableWidth)
        (false, r.1, r.2)
      else if height > (cfg.usableHeight : Int) then
        let r := sendError e
          ("Height " ++ toString height ++ " exceeds usable height " ++ toString cfg.usableHeight)
        (false, r.1, r.2)
      else
        (true, e, [Msg.line ("Dimensions validated: " ++ toString width ++ "x" ++ toString height)])

/-- SerialProtocol::calculateOffsets.  The out-parameters offsetX/offsetY
are the engine members and are written before the bounds check, so they are
updated even on the failing path (where sendError then zeroes them via
reset).  C++ truncating int division is Int.tdiv; the uint16_t config fields
divide as Nat. -/
def calculateOffsets (e : Engine) (bmpWidth bmpHeight : Int) :
    Bool × Engine × List Msg :=
  match e.activeDisplay with
  | none => (false, e, [])
  | some cfg =>
      let usableCenterX : Int := (cfg.usableX : Int) + (cfg.usableWidth / 2 : Nat)
      let usableCenterY : Int := (cfg.usableY : Int) + (cfg.usableHeight / 2 : Nat)
      let bitmapCenterX : Int := bmpWidth.tdiv 2
      let bitmapCenterY : Int := bmpHeight.tdiv 2
      let ox : Int := usableCenterX - bitmapCenterX
      let oy : Int := usableCenterY - bitmapCenterY
      let e1 := { e with offsetX := ox, offsetY := oy }
      let minX := ox
      let maxX := ox + bmpWidth - 1
      let minY := oy
      let maxY := oy + bmpHeight - 1
      if ¬ (isWithinBounds cfg minX minY = true) ∨ ¬ (isWithinBounds cfg maxX maxY = true) then
        let r := sendError e1 "Calculated bitmap position exceeds bounds"
        (false, r.1, r.2)
      else
        (true, e1,
          [Msg.line ("Usable center: (" ++ toString usableCenterX ++ ", " ++ toString usableCenterY ++ ")"),
           Msg.line ("Bitmap center: (" ++ toString bitmapCenterX ++ ", " ++ toString bitmapCenterY ++ ")"),
           Msg.line ("Centering at offset: (" ++ toString ox ++ ", " ++ toString oy ++ ")"),
           Msg.line ("Bitmap will occupy: (" ++ toString minX ++ "," ++ toString minY ++
                     ") to (" ++ toString maxX ++ "," ++ toString maxY ++ ")")])

/-- SerialProtocol::handleMenuCommand (the "CMD:" prefix is already
stripped by the lexing into MenuCmd).  LIST/INFO/TEST/TEST_ALL/CALIBRATE/
HELP only write output; their display-driver and registry fan-out effects
are not modelled.  ORIENTATION stores the rotation in the driver, not in
the engine or config, so it appears here as output only. -/
def handleMenuCommand (e : Engine) (c : MenuCmd) : Engine × List Msg :=
  match c with
  | .reset => (reset e, [Msg.ok "Protocol reset"])
  | .list => (e, [Msg.ok "DISPLAY_LIST", Msg.line "END_LIST"])
  | .info =>
      match e.activeDisplay with
      | none => (e, [Msg.error "No active display selected"])
      | some _ => (e, [Msg.ok "DISPLAY_INFO", Msg.line "END_INFO"])
  | .test =>
      match e.activeDisplay with
      | none => (e, [Msg.error "No active display selected"])
      | some _ => (e, [Msg.ok "Testing display", Msg.line "Test pattern displayed"])
  | .testAll => (e, [Msg.ok "Testing all displays", Msg.line "All test patterns displayed"])
  | .frameOn =>
      match e.activeDisplay with
      | none => (e, [Msg.error "No active display selected"])
      | some _ => ({ e with imageFrameEnabled := true }, [Msg.ok "Frame enabled"])
  | .frameOff =>
      match e.activeDisplay with
      | none => (e, [Msg.error "No active display selected"])
      | some _ => ({ e with imageFrameEnabled := false }, [Msg.ok "Frame disabled"])
  | .frameColor n =>
      match e.activeDisplay with
      | none => (e, [Msg.error "No active display selected"])
      | some _ =>
          let color := toUInt16 n
          ({ e with imageFrameColor := color, imageFrameEnabled := true },
           [Msg.ok ("Frame color set to " ++ toString color)])
  | .frameThickness n =>
      match e.activeDisplay with
      | none => (e, [Msg.error "No active display selected"])
      | some _ =>
          if n < 1 ∨ n > 10 then
            (e, [Msg.error "Thickness must be between 1 and 10"])
          else
            ({ e with imageFrameThickness := n.toNat, imageFrameEnabled := true },
             [Msg.ok ("Frame thickness set to " ++ toString n)])
  | .adjustTop a =>
      match e.activeDisplay with
      | none => (e, [Msg.error "No active display selected"])
      | some cfg =>
          let adjust := toInt8 a
          let newTop : Int := (cfg.usableY : Int) - adjust
          let innerBound : Int := (cfg.centerY : Int) - 10
          let outerBound : Int := -10
          if newTop < outerBound then
            (e, [Msg.error ("Top edge would be beyond limit (maximum adjustment: " ++
                            toString ((cfg.usableY : Int) - outerBound) ++ ")")])
          else if newTop > innerBound then
            (e, [Msg.error ("Top edge would be past center-10 (minimum adjustment: " ++
                            toString ((cfg.usableY : Int) - innerBound) ++ ")")])
          else
            ({ e with usableAreaAdjustTop := adjust },
             [Msg.ok ("Top edge adjusted to " ++ toString adjust)] ++
             (if newTop ≤ -10 then
               [Msg.line "NOTICE:Top edge at maximum outward position (-10 pixels beyond display)"]
              else []))
  | .adjustBottom a =>
      match e.activeDisplay with
      | none => (e, [Msg.error "No active display selected"])
      | some cfg =>
          let adjust := toInt8 a
          let configBottom : Int := (cfg.usableY : Int) + cfg.usableHeight - 1
          let newBottom : Int := configBottom + adjust
          let innerBound : Int := (cfg.centerY : Int) + 10
          let outerBound : Int := (cfg.height : Int) + 10 - 1
          if newBottom > outerBound then
            (e, [Msg.error ("Bottom edge would be beyond limit (maximum: " ++
                            toString (outerBound - configBottom) ++ ")")])
          else if newBottom < innerBound then
            (e, [Msg.error ("Bottom edge would be past center+10 (minimum: " ++
                            toString (innerBound - configBottom) ++ ")")])
          else
            ({ e with usableAreaAdjustBottom := adjust },
             [Msg.ok ("Bottom edge adjusted to " ++ toString adjust)] ++
             (if newBottom ≥ (cfg.height : Int) + 10 - 1 then
               [Msg.line "NOTICE:Bottom edge at maximum outward position"]
              else []))
  | .adjustLeft a =>
      match e.activeDisplay with
      | none => (e, [Msg.error "No active display selected"])
      | some cfg =>
          let adjust := toInt8 a
          let newLeft : Int := (cfg.usableX : Int) - adjust
          let innerBound : Int := (cfg.centerX : Int) - 10
          let outerBound : Int := -10
          if newLeft < outerBound then
            (e, [Msg.error ("Left edge would be beyond limit (maximum adjustment: " ++
                            toString ((cfg.usableX : Int) - outerBound) ++ ")")])
          else if newLeft > innerBound then
            (e, [Msg.error ("Left edge would be past center-10 (minimum adjustment: " ++
                            toString ((cfg.usableX : Int) - innerBound) ++ ")")])
          else
            ({ e with usableAreaAdjustLeft := adjust },
             [Msg.ok ("Left edge adjusted to " ++ toString adjust)] ++
             (if newLeft ≤ -10 then
               [Msg.line "NOTICE:Left edge at maximum outward position (-10 pixels beyond display)"]
              else []))
  | .adjustRight a =>
      match e.activeDisplay with
      | none => (e, [Msg.error "No active display selected"])
      | some cfg =>
          let adjust := toInt8 a
          let configRight : Int := (cfg.usableX : Int) + cfg.usableWidth - 1
          let newRight : Int := configRight + adjust
          let innerBound : Int := (cfg.centerX : Int) + 10
          let outerBound : Int := (cfg.width : Int) + 10 - 1
          if newRight > outerBound then
            (e, [Msg.error ("Right edge would be beyond limit (maximum: " ++
                            toString (outerBound - configRight) ++ ")")])
          else if newRight < innerBound then
            (e, [Msg.error ("Right edge would be past center+10 (minimum: " ++
                            toString (innerBound - configRight) ++ ")")])
          else
            ({ e with usableAreaAdjustRight := adjust },
             [Msg.ok ("Right edge adjusted to " ++ toString adjust)] ++
             (if newRight ≥ (cfg.width : Int) + 10 - 1 then
               [Msg.line "NOTICE:Right edge at maximum outward position"]
              else []))
  | .calibrate =>
      match e.activeDisplay with
      | none => (e, [Msg.error "No active display selected"])
      | some _ => (e, [Msg.ok "Showing calibration pattern", Msg.line "Calibration pattern displayed"])
  | .updateConfig vals =>
      match e.activeDisplay with
      | none => (e, [Msg.error "No active display selected"])
      | some cfg =>
          if vals.length > 6 then
            (e, [Msg.error "Too many parameters"])
          else if vals.length ≠ 6 then
            (e, [Msg.error "Expected 6 parameters (left,right,top,bottom,centerX,centerY)"])
          else
            let l := vals.getD 0 0
            let r := vals.getD 1 0
            let t := vals.getD 2 0
            let b := vals.getD 3 0
            let cx := vals.getD 4 0
            let cy := vals.getD 5 0
            let cfg1 : DisplayConfig :=
              { cfg with
                usableX := toUInt16 l
                usableWidth := toUInt16 (r - l + 1)
                usableY := toUInt16 t
                usableHeight := toUInt16 (b - t + 1)
                centerX := toUInt16 cx
                centerY := toUInt16 cy }
            ({ e with
                activeDisplay := some cfg1
                usableAreaAdjustTop := 0
                usableAreaAdjustBottom := 0
                usableAreaAdjustLeft := 0
                usableAreaAdjustRight := 0 },
             [Msg.ok "Base configuration updated",
              Msg.line "NOTE:Changes lost on power cycle - update .config file for permanent storage"])
  | .orientation n =>
      match e.activeDisplay with
      | none => (e, [Msg.error "No active display selected"])
      | some _ =>
          if n < 0 ∨ n > 3 then
            (e, [Msg.error "Invalid orientation. Use 0-3"])
          else
            (e, [Msg.ok ("Orientation set to " ++ toString n)])
  | .help => (e, [Msg.ok "HELP", Msg.line "END_HELP"])
  | .unknown s => (e, [Msg.error ("Unknown command: " ++ s)])

/-- SerialProtocol::handleDisplaySelect, for a single arriving line.  The
registry lookup displayManager.getDisplay(name) is the function argument.
A line matching none of the prefix tests is swallowed by the bounded wait
loop, which then prints the idle prompt. -/
def handleDisplaySelect (registry : String → Option DisplayConfig) (now : Nat)
    (e : Engine) (line : Line) : Engine × List Msg :=
  match line with
  | .cmd c => handleMenuCommand e c
  | .resetLine => (reset e, [Msg.line "Protocol reset"])
  | .frame f =>
      match f with
      | .on => ({ e with imageFrameEnabled := true }, [Msg.line "Frame enabled"])
      | .off => ({ e with imageFrameEnabled := false }, [Msg.line "Frame disabled"])
      | .color n =>
          ({ e with imageFrameColor := toUInt16 n },
           [Msg.line ("Frame color set to: " ++ toString (toUInt16 n))])
      | .thickness n =>
          ({ e with imageFrameThickness := toUInt8 n },
           [Msg.line ("Frame thickness set to: " ++ toString (toUInt8 n))])
  | .display name =>
      match registry name with
      | some cfg =>
          ({ e with
              activeDisplay := some cfg
              currentState := .WAITING_FOR_START
              lastActivity := now },
           [Msg.line ("DISPLAY_READY:" ++ name)])
      | none =>
          sendError { e with activeDisplay := none } ("Display not found: " ++ name)
  | _ => (e, [Msg.line "Ready for next bitmap"])

/-- SerialProtocol::handleStart.  The Bool records whether the pending line
was consumed: the missing-active-display branch returns before reading. -/
def handleStart (e : Engine) (line : Line) : Engine × Bool × List Msg :=
  match e.activeDisplay with
  | none =>
      let r := sendError e "No active display selected"
      ({ r.1 with currentState := .WAITING_FOR_DISPLAY_SELECT }, false, r.2)
  | some _ =>
      match line with
      | .cmd c =>
          let r := handleMenuCommand e c
          (r.1, true, r.2)
      | .bmpStart =>
          ({ e with currentState := .WAITING_FOR_SIZE }, true,
           [Msg.line "Start marker received"])
      | .empty => (e, true, [])
      | l =>
          let r := sendError e ("Expected BMPStart, got: " ++ l.render)
          (r.1, true, r.2)

/-- SerialProtocol::handleSize.  A line that does not start with "SIZE:" is
dropped silently; "SIZE:" without a comma is the malformed case.  The
bitmapWidth/bitmapHeight members are assigned before validation runs. -/
def handleSize (e : Engine) (line : Line) : Engine × List Msg :=
  match line with
  | .size w h =>
      let e0 := { e with bitmapWidth := w, bitmapHeight := h }
      let v := validateDimensions e0 w h
      if v.1 then
        let co := calculateOffsets v.2.1 w h
        if co.1 then
          ({ co.2.1 with currentRow := 0, currentCol := 0, currentState := .RECEIVING_DATA },
           v.2.2 ++ co.2.2 ++
           [Msg.line "Clearing display...",
            Msg.line "READY",
            Msg.line ("Receiving bitmap: " ++ toString w ++ "x" ++ toString h),
            Msg.line ("Ready to receive " ++ toString (w * h) ++ " pixels")])
        else
          (co.2.1, v.2.2 ++ co.2.2)
      else
        (v.2.1, v.2.2)
  | .sizeMalformed _ =>
      sendError e "Invalid size format"
  | _ => (e, [])

/-- SerialProtocol::handleEnd.  Any line other than "BMPEnd" is dropped
silently.  drawImageFrame is a display effect and is not modelled. -/
def handleEnd (e : Engine) (line : Line) : Engine × List Msg :=
  match line with
  | .bmpEnd =>
      ({ e with currentState := .BITMAP_COMPLETE },
       [Msg.line "COMPLETE", Msg.line "Bitmap display completed successfully!"])
  | _ => (e, [])

/-- SerialProtocol::handleComplete: auto-advances without reading input. -/
def handleComplete (e : Engine) : Engine × List Msg :=
  ({ e with
      currentState := .WAITING_FOR_START
      bitmapWidth := 0
      bitmapHeight := 0
      currentRow := 0
      currentCol := 0
      offsetX := 0
      offsetY := 0 },
   [Msg.line "Ready for next bitmap"])

/-- SerialProtocol::process for one poll with a pending input line.  The
source returns immediately when no input is available, so this models only
the available case; lastActivity is stamped with millis() first.  The Bool
records whether the pending line was consumed (handleComplete reads
nothing, and RECEIVING_DATA consumes byte pairs rather than lines; the
byte-stream handler is outside the verified claims and is not modelled). -/
def process (registry : String → Option DisplayConfig) (now : Nat)
    (e : Engine) (line : Line) : Engine × Bool × List Msg :=
  let e1 := { e with lastActivity := now }
  match e.currentState with
  | .WAITING_FOR_DISPLAY_SELECT =>
      let r := handleDisplaySelect registry now e1 line
      (r.1, true, r.2)
  | .WAITING_FOR_START => handleStart e1 line
  | .WAITING_FOR_SIZE =>
      let r := handleSize e1 line
      (r.1, true, r.2)
  | .RECEIVING_DATA => (e1, false, [])
  | .WAITING_FOR_END =>
      let r := handleEnd e1 line
      (r.1, true, r.2)
  | .BITMAP_COMPLETE =>
      let r := handleComplete e1
      (r.1, false, r.2)

/-- SerialProtocol::checkTimeout.  TIMEOUT_MS = 15000; unsigned millis
subtraction is modelled as Nat subtraction (the caller never rewinds the
clock).  The condition explicitly excludes WAITING_FOR_DISPLAY_SELECT,
WAITING_FOR_START and BITMAP_COMPLETE. -/
def checkTimeout (e : Engine) (now : Nat) : Engine × List Msg :=
  if e.currentState ≠ .WAITING_FOR_DISPLAY_SELECT ∧
     e.currentState ≠ .WAITING_FOR_START ∧
     e.currentState ≠ .BITMAP_COMPLETE ∧
     now - e.lastActivity > 15000 then
    let r := sendError e "Timeout waiting for data"
    ({ reset r.1 with lastActivity := now },
     r.2 ++ [Msg.line "Timeout - resetting protocol"])
  else
    (e, [])

namespace DisplaySnapshot

/-- The SnapshotHeader fields together with the pixel block that follows
them in the single allocation (display_snapshot.cpp).  width and height are
uint16_t, the offsets int16_t, the pixels uint16_t RGB565 values. -/
structure Snapshot where
  width : Nat
  height : Nat
  offsetX : Int
  offsetY : Int
  pixels : List Nat
  deriving DecidableEq, Repr

/-- sizeof(SnapshotHeader): four 16-bit fields, no padding. -/
def headerBytes : Nat := 8

/-- The process-wide snapshot block g_snapshot (none models nullptr). -/
abbrev Store := Option Snapshot

/-- DisplaySnapshot::hasSnapshot. -/
def hasSnapshot (st : Store) : Bool := st.isSome

/-- DisplaySnapshot::captureFromBuffer.  src is the source buffer read at
row-major indices 0 .. width*height-1 (a Lean list is never the null
pointer, so the !src test is not representable); allocOk models the malloc
result: on allocation failure the previous snapshot is left untouched.
The safety ceiling is 60 KiB on header plus pixel bytes. -/
def captureFromBuffer (allocOk : Bool) (src : List Nat) (width height : Nat)
    (offsetX offsetY : Int) (st : Store) : Bool × Store :=
  if width = 0 ∨ height = 0 then (false, st)
  else if headerBytes + width * height * 2 > 60 * 1024 then (false, st)
  else if ¬ allocOk then (false, st)
  else
    (true, some
      { width := width
        height := height
        offsetX := offsetX
        offsetY := offsetY
        pixels := (List.range (width * height)).map fun i => src.getD i 0 })

/-- DisplaySnapshot::restoreToDisplay.  The driver is represented by its
reported width/height; the middle component holds the tft.drawPixel calls
(x, y, color) in issue order, and the last component is g_snapshot after
the call — the function never frees or replaces it. -/
def restoreToDisplay (tftWidth tftHeight : Nat) (st : Store) :
    Bool × List (Int × Int × Nat) × Store :=
  match st with
  | none => (false, [], none)
  | some s =>
      (true,
       (List.range s.height).flatMap fun (r : Nat) =>
         (List.range s.width).filterMap fun (c : Nat) =>
           let dx : Int := s.offsetX + (c : Int)
           let dy : Int := s.offsetY + (r : Int)
           if 0 ≤ dx ∧ dx < (tftWidth : Int) ∧ 0 ≤ dy ∧ dy < (tftHeight : Int) then
             some (dx, dy, s.pixels.getD ((r * s.width + c : Nat)) 0)
           else
             none,
       some s)

/-- DisplaySnapshot::discardSnapshot. -/
def discardSnapshot (_ : Store) : Store := none

end DisplaySnapshot

/-! ### Specification-side predicates -/

/-- The dimension checks of validateDimensions as a single predicate:
positive, at most MAX_DIMENSION = 1000 and at most the usable extent. -/
def dimsValid (cfg : DisplayConfig) (w h : Int) : Bool :=
  decide (0 < w ∧ 0 < h ∧ w ≤ 1000 ∧ h ≤ 1000 ∧
          w ≤ (cfg.usableWidth : Int) ∧ h ≤ (cfg.usableHeight : Int))

/-- The centering offset formula of calculateOffsets: the usable rectangle
center minus half the bitmap width (truncating integer division). -/
def centerOffsetX (cfg : DisplayConfig) (w : Int) : Int :=
  ((cfg.usableX : Int) + (cfg.usableWidth / 2 : Nat)) - w.tdiv 2

/-- The vertical centering offset of calculateOffsets. -/
def centerOffsetY (cfg : DisplayConfig) (h : Int) : Int :=
  ((cfg.usableY : Int) + (cfg.usableHeight / 2 : Nat)) - h.tdiv 2

/-- The corner check of calculateOffsets: both corners of the centered
placement lie within bounds. -/
def placementOk (cfg : DisplayConfig) (w h : Int) : Bool :=
  isWithinBounds cfg (centerOffsetX cfg w) (centerOffsetY cfg h) &&
  isWithinBounds cfg (centerOffsetX cfg w + w - 1) (centerOffsetY cfg h + h - 1)

/-! ### Concrete fixtures (a 128x160 panel with a 1-pixel border trimmed) -/

/-- A representative display configuration. -/
def cfg0 : DisplayConfig where
  width := 128
  height := 160
  usableX := 1
  usableY := 1
  usableWidth := 126
  usableHeight := 158
  centerX := 64
  centerY := 80

/-- An engine waiting for SIZE with cfg0 selected. -/
def eSize0 : Engine :=
  { Engine.initial with currentState := .WAITING_FOR_SIZE, activeDisplay := some cfg0 }

/-- An engine waiting for BMPStart with cfg0 selected. -/
def eStart0 : Engine :=
  { Engine.initial with currentState := .WAITING_FOR_START, activeDisplay := some cfg0 }

/-- An engine in the Complete state with cfg0 selected. -/
def eComplete0 : Engine :=
  { Engine.initial with currentState := .BITMAP_COMPLETE, activeDisplay := some cfg0 }

/-- An empty display registry. -/
def reg0 : String → Option DisplayConfig := fun _ => none

/-! ### Characterization lemmas for the size path -/

/-- int8 narrowing is the identity on the int8 range. -/
theorem toInt8_eq_self (a : Int) (h1 : -128 ≤ a) (h2 : a ≤ 127) : toInt8 a = a := by
  unfold toInt8
  omega

/-- validateDimensions computes dimsValid; it leaves the engine alone on
success and error-resets on failure. -/
theorem validateDimensions_spec (e : Engine) (cfg : DisplayConfig) (w h : Int)
    (hd : e.activeDisplay = some cfg) :
    (validateDimensions e w h).1 = dimsValid cfg w h ∧
    (dimsValid cfg w h = true → (validateDimensions e w h).2.1 = e ∧
      hasError (validateDimensions e w h).2.2 = false) ∧
    (dimsValid cfg w h = false → (validateDimensions e w h).2.1 = reset e ∧
      hasError (validateDimensions e w h).2.2 = true) := by
  have hdv : dimsValid cfg w h = true ↔
      (0 < w ∧ 0 < h ∧ w ≤ 1000 ∧ h ≤ 1000 ∧
       w ≤ (cfg.usableWidth : Int) ∧ h ≤ (cfg.usableHeight : Int)) := by
    simp [dimsValid]
  simp only [validateDimensions, hd, sendError]
  split_ifs with h1 h2 h3 h4
  · have hf : dimsValid cfg w h = false := by
      rw [Bool.eq_false_iff, Ne, hdv]; omega
    simp [hf, hasError]
  · have hf : dimsValid cfg w h = false := by
      rw [Bool.eq_false_iff, Ne, hdv]; omega
    simp [hf, hasError]
  · have hf : dimsValid cfg w h = false := by
      rw [Bool.eq_false_iff, Ne, hdv]; omega
    simp [hf, hasError]
  · have hf : dimsValid cfg w h = false := by
      rw [Bool.eq_false_iff, Ne, hdv]; omega
    simp [hf, hasError]
  · have ht : dimsValid cfg w h = true := by
      rw [hdv]; omega
    simp [ht, hasError]

/-- calculateOffsets computes the centering formula, stores it in the
offset members, and succeeds exactly when placementOk holds; on failure it
error-resets. -/
theorem calculateOffsets_spec (e : Engine) (cfg : DisplayConfig) (w h : Int)
    (hd : e.activeDisplay = some cfg) :
    (calculateOffsets e w h).1 = placementOk cfg w h ∧
    (placementOk cfg w h = true →
      (calculateOffsets e w h).2.1 =
        { e with offsetX := centerOffsetX cfg w, offsetY := centerOffsetY cfg h } ∧
      hasError (calculateOffsets e w h).2.2 = false) ∧
    (placementOk cfg w h = false →
      (calculateOffsets e w h).2.1 = reset e ∧
      hasError (calculateOffsets e w h).2.2 = true) := by
  simp only [calculateOffsets, hd, sendError, placementOk, centerOffsetX, centerOffsetY]
  split_ifs with h1
  · rcases h1 with h1 | h1 <;>
      simp_all [hasError, reset]
  · push_neg at h1
    simp_all [hasError]

/-- hasError distributes over append. -/
theorem hasError_append (a b : List Msg) :
    hasError (a ++ b) = (hasError a || hasError b) :=
  List.any_append

/-- Any failing SIZE path (bad dimensions or bad placement) error-resets
the engine: handleSize hands back exactly reset of the entered engine. -/
theorem handleSize_failure (e : Engine) (cfg : DisplayConfig) (w h : Int)
    (hd : e.activeDisplay = some cfg)
    (hfail : ¬ (dimsValid cfg w h = true ∧ placementOk cfg w h = true)) :
    (handleSize e (.size w h)).1 = reset e ∧
    hasError (handleSize e (.size w h)).2 = true := by
  have he0 : ({ e with bitmapWidth := w, bitmapHeight := h } : Engine).activeDisplay = some cfg :=
    hd
  obtain ⟨hv1, hvt, hvf⟩ := validateDimensions_spec _ cfg w h he0
  by_cases hdim : dimsValid cfg w h = true
  · have hpl : placementOk cfg w h = false := by
      cases hp : placementOk cfg w h
      · rfl
      · exact absurd ⟨hdim, hp⟩ hfail
    obtain ⟨hve, hvm⟩ := hvt hdim
    obtain ⟨hc1, hct, hcf⟩ :=
      calculateOffsets_spec ((validateDimensions
        { e with bitmapWidth := w, bitmapHeight := h } w h).2.1) cfg w h
        (by rw [hve]; exact he0)
    obtain ⟨hce, hcm⟩ := hcf hpl
    constructor
    · simp only [handleSize, hv1, hdim, hc1, hpl, if_true, Bool.false_eq_true, if_false]
      rw [hce, hve]
      simp [reset]
    · simp only [handleSize, hv1, hdim, hc1, hpl, if_true, Bool.false_eq_true, if_false]
      rw [hasError_append, hvm, hcm]
      rfl
  · have hdf : dimsValid cfg w h = false := by
      cases hp : dimsValid cfg w h
      · rfl
      · exact absurd hp hdim
    obtain ⟨hve, hvm⟩ := hvf hdf
    constructor
    · simp only [handleSize, hv1, hdf, Bool.false_eq_true, if_false]
      rw [hve]
      simp [reset]
    · simp only [handleSize, hv1, hdf, Bool.false_eq_true, if_false]
      exact hvm

/-- The successful SIZE path stores the parsed geometry and the centering
offsets and enters RECEIVING_DATA without an error. -/
theorem handleSize_success (e : Engine) (cfg : DisplayConfig) (w h : Int)
    (hd : e.activeDisplay = some cfg)
    (hdim : dimsValid cfg w h = true) (hpl : placementOk cfg w h = true) :
    (handleSize e (.size w h)).1 =
      { e with
          bitmapWidth := w
          bitmapHeight := h
          offsetX := centerOffsetX cfg w
          offsetY := centerOffsetY cfg h
          currentRow := 0
          currentCol := 0
          currentState := .RECEIVING_DATA } ∧
    hasError (handleSize e (.size w h)).2 = false := by
  have he0 : ({ e with bitmapWidth := w, bitmapHeight := h } : Engine).activeDisplay = some cfg :=
    hd
  obtain ⟨hv1, hvt, hvf⟩ := validateDimensions_spec _ cfg w h he0
  obtain ⟨hve, hvm⟩ := hvt hdim
  obtain ⟨hc1, hct, hcf⟩ :=
    calculateOffsets_spec ((validateDimensions
      { e with bitmapWidth := w, bitmapHeight := h } w h).2.1) cfg w h
      (by rw [hve]; exact he0)
  obtain ⟨hce, hcm⟩ := hct hpl
  constructor
  · simp only [handleSize, hv1, hdim, hc1, hpl, if_true]
    rw [hce, hve]
  · simp only [handleSize, hv1, hdim, hc1, hpl, if_true]
    rw [hasError_append, hasError_append, hvm, hcm]
    rfl

/-- In the WAITING_FOR_SIZE state a poll stamps lastActivity and runs
handleSize on the pending line. -/
theorem process_size_state (registry : String → Option DisplayConfig) (now : Nat)
    (e : Engine) (line : Line) (hs : e.currentState = .WAITING_FOR_SIZE) :
    process registry now e line =
      ((handleSize { e with lastActivity := now } line).1, true,
       (handleSize { e with lastActivity := now } line).2) := by
  simp only [process, hs]

/-- C1 counterexample: in WAITING_FOR_SIZE with an active display, the line
SIZE:0,5 fails dimension validation, the engine emits an ERROR — and does
NOT stay in WAITING_FOR_SIZE with its display: sendError calls reset(), so
it lands in WAITING_FOR_DISPLAY_SELECT with no active display, contrary to
the claim that the state is unchanged. -/
theorem C1_counterexample :
    (process reg0 5 eSize0 (Line.size 0 5)).1.currentState =
      ProtocolState.WAITING_FOR_DISPLAY_SELECT ∧
    (process reg0 5 eSize0 (Line.size 0 5)).1.activeDisplay = none ∧
    hasError (process reg0 5 eSize0 (Line.size 0 5)).2.2 = true ∧
    ProtocolState.WAITING_FOR_DISPLAY_SELECT ≠ ProtocolState.WAITING_FOR_SIZE :=
  ⟨rfl, rfl, rfl, by decide⟩

/-- C1 (amended): for every SIZE:w,h line received in WAITING_FOR_SIZE
whose dimensions fail validation or whose computed placement fails the
offset check, the engine emits an ERROR line and resets: it transitions to
WAITING_FOR_DISPLAY_SELECT, the active display is cleared and the transfer
counters are zeroed, while the four session adjustments keep their values
(the command never partially applies an accepted transfer). -/
theorem C1_size_failure_error_resets (registry : String → Option DisplayConfig)
    (now : Nat) (e : Engine) (cfg : DisplayConfig) (w h : Int)
    (hs : e.currentState = .WAITING_FOR_SIZE)
    (hd : e.activeDisplay = some cfg)
    (hfail : ¬ (dimsValid cfg w h = true ∧ placementOk cfg w h = true)) :
    (process registry now e (Line.size w h)).1 = reset { e with lastActivity := now } ∧
    (process registry now e (Line.size w h)).1.currentState =
      ProtocolState.WAITING_FOR_DISPLAY_SELECT ∧
    (process registry now e (Line.size w h)).1.activeDisplay = none ∧
    (process registry now e (Line.size w h)).1.usableAreaAdjustTop = e.usableAreaAdjustTop ∧
    (process registry now e (Line.size w h)).1.usableAreaAdjustBottom = e.usableAreaAdjustBottom ∧
    (process registry now e (Line.size w h)).1.usableAreaAdjustLeft = e.usableAreaAdjustLeft ∧
    (process registry now e (Line.size w h)).1.usableAreaAdjustRight = e.usableAreaAdjustRight ∧
    hasError (process registry now e (Line.size w h)).2.2 = true := by
  have hp := process_size_state registry now e (Line.size w h) hs
  have hd1 : ({ e with lastActivity := now } : Engine).activeDisplay = some cfg := hd
  obtain ⟨h1, h2⟩ := handleSize_failure { e with lastActivity := now } cfg w h hd1 hfail
  rw [hp]
  refine ⟨h1, ?_, ?_, ?_, ?_, ?_, ?_, h2⟩ <;> rw [h1] <;> rfl

/-- C1 witness: the amended theorem applied to the concrete failing line
SIZE:0,5 on the fixture engine. -/
theorem C1_size_failure_error_resets_witness :
    (process reg0 5 eSize0 (Line.size 0 5)).1 =
      reset { eSize0 with lastActivity := 5 } ∧
    hasError (process reg0 5 eSize0 (Line.size 0 5)).2.2 = true :=
  ⟨(C1_size_failure_error_resets reg0 5 eSize0 cfg0 0 5 rfl rfl (by decide)).1,
   (C1_size_failure_error_resets reg0 5 eSize0 cfg0 0 5 rfl rfl (by decide)).2.2.2.2.2.2.2⟩

/-- C7: for every bitmap size (w,h) that passes dimension validation, the
centering offsets are exactly centerOffsetX/centerOffsetY, i.e.
(usableX + usableWidth/2) - w/2 and (usableY + usableHeight/2) - h/2 with
truncating integer division, and the engine enters RECEIVING_DATA exactly
when both corners (offsetX, offsetY) and (offsetX+w-1, offsetY+h-1)
satisfy isWithinBounds; otherwise the transfer is rejected with an error
before any pixel is accepted. -/
theorem C7_centering_offsets (registry : String → Option DisplayConfig)
    (now : Nat) (e : Engine) (cfg : DisplayConfig) (w h : Int)
    (hs : e.currentState = .WAITING_FOR_SIZE)
    (hd : e.activeDisplay = some cfg)
    (hdim : dimsValid cfg w h = true) :
    ((process registry now e (Line.size w h)).1.currentState =
        ProtocolState.RECEIVING_DATA ↔ placementOk cfg w h = true) ∧
    (placementOk cfg w h = true →
      (process registry now e (Line.size w h)).1.offsetX = centerOffsetX cfg w ∧
      (process registry now e (Line.size w h)).1.offsetY = centerOffsetY cfg h ∧
      isWithinBounds cfg (centerOffsetX cfg w) (centerOffsetY cfg h) = true ∧
      isWithinBounds cfg (centerOffsetX cfg w + w - 1) (centerOffsetY cfg h + h - 1) = true) ∧
    (placementOk cfg w h = false →
      (process registry now e (Line.size w h)).1.currentState =
        ProtocolState.WAITING_FOR_DISPLAY_SELECT ∧
      hasError (process registry now e (Line.size w h)).2.2 = true) := by
  have hp := process_size_state registry now e (Line.size w h) hs
  have hd1 : ({ e with lastActivity := now } : Engine).activeDisplay = some cfg := hd
  rw [hp]
  by_cases hpl : placementOk cfg w h = true
  · obtain ⟨h1, h2⟩ := handleSize_success { e with lastActivity := now } cfg w h hd1 hdim hpl
    have hcorners := hpl
    rw [placementOk, Bool.and_eq_true] at hcorners
    rw [h1]
    refine ⟨by simp [hpl], fun _ => ⟨rfl, rfl, hcorners.1, hcorners.2⟩, fun hf => ?_⟩
    rw [hf] at hpl
    cases hpl
  · have hplf : placementOk cfg w h = false := by
      cases hq : placementOk cfg w h
      · rfl
      · exact absurd hq hpl
    obtain ⟨h1, h2⟩ := handleSize_failure { e with lastActivity := now } cfg w h hd1
      (fun hc => hpl hc.2)
    rw [h1]
    refine ⟨⟨fun hr => ?_, fun ht => ?_⟩, fun ht => absurd ht hpl, fun _ => ⟨rfl, h2⟩⟩
    · exact absurd hr (by simp [reset])
    · exact absurd ht hpl

/-- C7 witness: the theorem at the concrete accepted size 4x4 on the
fixture display, whose placement is accepted and centered at (62, 78). -/
theorem C7_centering_offsets_witness :
    ((process reg0 5 eSize0 (Line.size 4 4)).1.currentState =
        ProtocolState.RECEIVING_DATA ↔ placementOk cfg0 4 4 = true) ∧
    placementOk cfg0 4 4 = true :=
  ⟨(C7_centering_offsets reg0 5 eSize0 cfg0 4 4 rfl rfl (by decide)).1, by decide⟩

/-- C3 counterexample: in BITMAP_COMPLETE with more than 15000 ms since the
last activity, checkTimeout does nothing — the source explicitly excludes
BITMAP_COMPLETE from the timeout alongside the selection and idle states,
so the claimed range "AwaitSize through Complete inclusive" is wrong at its
upper end. -/
theorem C3_counterexample :
    (checkTimeout eComplete0 20000).1.currentState = ProtocolState.BITMAP_COMPLETE ∧
    (checkTimeout eComplete0 20000).2 = [] ∧
    20000 - eComplete0.lastActivity > 15000 ∧
    ProtocolState.BITMAP_COMPLETE ≠ ProtocolState.WAITING_FOR_DISPLAY_SELECT :=
  ⟨rfl, rfl, by decide, by decide⟩

/-- C3 (amended): checkTimeout fires exactly in the three in-transfer
states WAITING_FOR_SIZE, RECEIVING_DATA and WAITING_FOR_END: there, more
than 15000 ms after the last recorded activity it emits a timeout error and
forces the engine back to WAITING_FOR_DISPLAY_SELECT; in
WAITING_FOR_DISPLAY_SELECT, WAITING_FOR_START and also BITMAP_COMPLETE it
never touches the engine, nor does it anywhere within the 15000 ms bound. -/
theorem C3_timeout_only_transfer_states (e : Engine) (now : Nat) :
    ((e.currentState = ProtocolState.WAITING_FOR_SIZE ∨
      e.currentState = ProtocolState.RECEIVING_DATA ∨
      e.currentState = ProtocolState.WAITING_FOR_END) →
      now - e.lastActivity > 15000 →
      (checkTimeout e now).1.currentState = ProtocolState.WAITING_FOR_DISPLAY_SELECT ∧
      (checkTimeout e now).1.activeDisplay = none ∧
      hasError (checkTimeout e now).2 = true) ∧
    ((e.currentState = ProtocolState.WAITING_FOR_DISPLAY_SELECT ∨
      e.currentState = ProtocolState.WAITING_FOR_START ∨
      e.currentState = ProtocolState.BITMAP_COMPLETE) →
      checkTimeout e now = (e, [])) ∧
    (now - e.lastActivity ≤ 15000 → checkTimeout e now = (e, [])) := by
  unfold checkTimeout
  split_ifs with hc
  · refine ⟨fun _ _ => ⟨rfl, rfl, rfl⟩, fun hst => ?_, fun ht => ?_⟩
    · rcases hst with h | h | h
      · exact absurd h hc.1
      · exact absurd h hc.2.1
      · exact absurd h hc.2.2.1
    · exact absurd hc.2.2.2 (by omega)
  · refine ⟨fun hst ht => ?_, fun _ => rfl, fun _ => rfl⟩
    exfalso
    apply hc
    rcases hst with h | h | h <;>
      exact ⟨by rw [h]; decide, by rw [h]; decide, by rw [h]; decide, ht⟩

/-- C3 witness: the amended theorem at a concrete engine stuck in
WAITING_FOR_SIZE for 20000 ms (fires) and at the Complete fixture (does
not fire). -/
theorem C3_timeout_only_transfer_states_witness :
    (checkTimeout eSize0 20000).1.currentState =
      ProtocolState.WAITING_FOR_DISPLAY_SELECT ∧
    hasError (checkTimeout eSize0 20000).2 = true ∧
    checkTimeout eComplete0 20000 = (eComplete0, []) :=
  ⟨((C3_timeout_only_transfer_states eSize0 20000).1 (Or.inl rfl) (by decide)).1,
   ((C3_timeout_only_transfer_states eSize0 20000).1 (Or.inl rfl) (by decide)).2.2,
   (C3_timeout_only_transfer_states eComplete0 20000).2.1 (Or.inr (Or.inr rfl))⟩

/-- uint16 narrowing is the identity on the uint16 range. -/
theorem toUInt16_eq_toNat (v : Int) (h1 : 0 ≤ v) (h2 : v < 65536) :
    toUInt16 v = v.toNat := by
  unfold toUInt16
  omega

/-- UPDATE_CONFIG characterization: six values commit all fields (uint16
truncated) and zero the adjustments; any other count rejects unchanged. -/
theorem updateConfig_spec (e : Engine) (cfg : DisplayConfig)
    (vals : List Int) (hd : e.activeDisplay = some cfg) :
    (vals.length = 6 →
      (handleMenuCommand e (MenuCmd.updateConfig vals)).1 =
        { e with
            activeDisplay := some { cfg with
              usableX := toUInt16 (vals.getD 0 0)
              usableWidth := toUInt16 (vals.getD 1 0 - vals.getD 0 0 + 1)
              usableY := toUInt16 (vals.getD 2 0)
              usableHeight := toUInt16 (vals.getD 3 0 - vals.getD 2 0 + 1)
              centerX := toUInt16 (vals.getD 4 0)
              centerY := toUInt16 (vals.getD 5 0) }
            usableAreaAdjustTop := 0
            usableAreaAdjustBottom := 0
            usableAreaAdjustLeft := 0
            usableAreaAdjustRight := 0 } ∧
      hasError (handleMenuCommand e (MenuCmd.updateConfig vals)).2 = false) ∧
    (vals.length ≠ 6 →
      (handleMenuCommand e (MenuCmd.updateConfig vals)).1 = e ∧
      hasError (handleMenuCommand e (MenuCmd.updateConfig vals)).2 = true) := by
  constructor
  · intro h6
    constructor
    · simp [handleMenuCommand, hd, h6]
    · simp [handleMenuCommand, hd, h6, hasError]
  · intro h6
    by_cases h7 : vals.length > 6
    · constructor
      · simp [handleMenuCommand, hd, h7]
      · simp [handleMenuCommand, hd, h7, hasError]
    · constructor
      · simp [handleMenuCommand, hd, h6, h7]
      · simp [handleMenuCommand, hd, h6, h7, hasError]

/-- C4 counterexample: UPDATE_CONFIG with left = -1 (and left < right,
top < bottom, six values, an active display) succeeds, but the stored
usableX is the uint16 truncation 65535, not the given left value -1, so
"afterwards usableX = left" fails as universally stated. -/
theorem C4_counterexample :
    ((handleMenuCommand eStart0
        (MenuCmd.updateConfig [-1, 10, 0, 10, 5, 5])).1.activeDisplay.map
      DisplayConfig.usableX) = some 65535 ∧
    hasError (handleMenuCommand eStart0
        (MenuCmd.updateConfig [-1, 10, 0, 10, 5, 5])).2 = false ∧
    ((-1 : Int) < 10) ∧ ((0 : Int) < 10) ∧ ((65535 : Int) ≠ -1) :=
  ⟨rfl, rfl, by decide, by decide, by decide⟩

/-- C4 (amended): with an active display and exactly six comma-separated
values, UPDATE_CONFIG succeeds and stores all six fields atomically as the
uint16 truncations toUInt16 of left, right-left+1, top, bottom-top+1,
centerX, centerY (hence exactly the given values whenever those lie in the
uint16 range), and zeroes all four session adjustments; with any other
number of values it is rejected with an ERROR and no engine or config
field changes. -/
theorem C4_update_config_atomic (e : Engine) (cfg : DisplayConfig)
    (vals : List Int) (hd : e.activeDisplay = some cfg) :
    (vals.length = 6 →
      (handleMenuCommand e (MenuCmd.updateConfig vals)).1 =
        { e with
            activeDisplay := some { cfg with
              usableX := toUInt16 (vals.getD 0 0)
              usableWidth := toUInt16 (vals.getD 1 0 - vals.getD 0 0 + 1)
              usableY := toUInt16 (vals.getD 2 0)
              usableHeight := toUInt16 (vals.getD 3 0 - vals.getD 2 0 + 1)
              centerX := toUInt16 (vals.getD 4 0)
              centerY := toUInt16 (vals.getD 5 0) }
            usableAreaAdjustTop := 0
            usableAreaAdjustBottom := 0
            usableAreaAdjustLeft := 0
            usableAreaAdjustRight := 0 } ∧
      hasError (handleMenuCommand e (MenuCmd.updateConfig vals)).2 = false) ∧
    (vals.length ≠ 6 →
      (handleMenuCommand e (MenuCmd.updateConfig vals)).1 = e ∧
      hasError (handleMenuCommand e (MenuCmd.updateConfig vals)).2 = true) :=
  updateConfig_spec e cfg vals hd

/-- C4 witness: the amended theorem at a concrete command
UPDATE_CONFIG:2,121,3,156,60,78 on the fixture engine, and at a rejected
five-value command. -/
theorem C4_update_config_atomic_witness :
    ((handleMenuCommand eStart0
        (MenuCmd.updateConfig [2, 121, 3, 156, 60, 78])).1.usableAreaAdjustTop = 0 ∧
      hasError (handleMenuCommand eStart0
        (MenuCmd.updateConfig [2, 121, 3, 156, 60, 78])).2 = false) ∧
    ((handleMenuCommand eStart0
        (MenuCmd.updateConfig [2, 121, 3, 156, 60])).1 = eStart0 ∧
      hasError (handleMenuCommand eStart0
        (MenuCmd.updateConfig [2, 121, 3, 156, 60])).2 = true) :=
  ⟨⟨by rw [((C4_update_config_atomic eStart0 cfg0 [2, 121, 3, 156, 60, 78] rfl).1 rfl).1],
    ((C4_update_config_atomic eStart0 cfg0 [2, 121, 3, 156, 60, 78] rfl).1 rfl).2⟩,
   (C4_update_config_atomic eStart0 cfg0 [2, 121, 3, 156, 60] rfl).2 (by decide)⟩

/-- C6 counterexample: reset() does not clear the session adjustments — an
engine whose top adjustment is 5 still has top adjustment 5 after reset,
contrary to the claim that every reset() zeroes all four. -/
theorem C6_counterexample :
    (reset { eStart0 with usableAreaAdjustTop := 5 }).usableAreaAdjustTop = 5 ∧
    ((5 : Int) ≠ 0) :=
  ⟨rfl, by decide⟩

/-- C6 (amended): reset() clears the protocol state, the borrowed display
and the transfer geometry but leaves all four session calibration
adjustments untouched; only committing a new base configuration via
UPDATE_CONFIG (with an active display and six values) zeroes them. -/
theorem C6_reset_keeps_adjustments (e : Engine) (cfg : DisplayConfig)
    (vals : List Int) :
    (reset e).usableAreaAdjustTop = e.usableAreaAdjustTop ∧
    (reset e).usableAreaAdjustBottom = e.usableAreaAdjustBottom ∧
    (reset e).usableAreaAdjustLeft = e.usableAreaAdjustLeft ∧
    (reset e).usableAreaAdjustRight = e.usableAreaAdjustRight ∧
    (reset e).currentState = ProtocolState.WAITING_FOR_DISPLAY_SELECT ∧
    (reset e).activeDisplay = none ∧
    (reset e).bitmapWidth = 0 ∧ (reset e).bitmapHeight = 0 ∧
    (e.activeDisplay = some cfg → vals.length = 6 →
      (handleMenuCommand e (MenuCmd.updateConfig vals)).1.usableAreaAdjustTop = 0 ∧
      (handleMenuCommand e (MenuCmd.updateConfig vals)).1.usableAreaAdjustBottom = 0 ∧
      (handleMenuCommand e (MenuCmd.updateConfig vals)).1.usableAreaAdjustLeft = 0 ∧
      (handleMenuCommand e (MenuCmd.updateConfig vals)).1.usableAreaAdjustRight = 0) := by
  refine ⟨rfl, rfl, rfl, rfl, rfl, rfl, rfl, rfl, fun hd h6 => ?_⟩
  rw [((updateConfig_spec e cfg vals hd).1 h6).1]
  exact ⟨rfl, rfl, rfl, rfl⟩

/-- C6 witness: the amended theorem at a concrete engine with nonzero
adjustments and the concrete six-value UPDATE_CONFIG. -/
theorem C6_reset_keeps_adjustments_witness :
    (reset { eStart0 with usableAreaAdjustTop := 5 }).usableAreaAdjustTop =
      ({ eStart0 with usableAreaAdjustTop := 5 } : Engine).usableAreaAdjustTop ∧
    (handleMenuCommand { eStart0 with usableAreaAdjustTop := 5 }
        (MenuCmd.updateConfig [2, 121, 3, 156, 60, 78])).1.usableAreaAdjustTop = 0 :=
  ⟨(C6_reset_keeps_adjustments { eStart0 with usableAreaAdjustTop := 5 } cfg0
      [2, 121, 3, 156, 60, 78]).1,
   ((C6_reset_keeps_adjustments { eStart0 with usableAreaAdjustTop := 5 } cfg0
      [2, 121, 3, 156, 60, 78]).2.2.2.2.2.2.2.2 rfl rfl).1⟩

/-- C5: with an active display and an int8 adjustment a, ADJUST_TOP
computes newTop = usableY - a (top and left invert the sign; bottom and
right add directly) and succeeds, storing a, exactly when newTop lies
between the outer bound -10 and the inner bound centerY - 10; outside the
band it emits an ERROR naming the legal limit and leaves the engine (in
particular the stored adjustment) unchanged; analogously for
ADJUST_BOTTOM, ADJUST_LEFT and ADJUST_RIGHT with outer bounds
height+10-1, -10 and width+10-1 and inner bounds centerY+10, centerX-10
and centerX+10. -/
theorem C5_adjust_edges (e : Engine) (cfg : DisplayConfig) (a : Int)
    (hd : e.activeDisplay = some cfg) (h1 : -128 ≤ a) (h2 : a ≤ 127) :
    (((-10 ≤ (cfg.usableY : Int) - a ∧
       (cfg.usableY : Int) - a ≤ (cfg.centerY : Int) - 10) →
      (handleMenuCommand e (MenuCmd.adjustTop a)).1 =
        { e with usableAreaAdjustTop := a } ∧
      hasError (handleMenuCommand e (MenuCmd.adjustTop a)).2 = false) ∧
     (¬ (-10 ≤ (cfg.usableY : Int) - a ∧
         (cfg.usableY : Int) - a ≤ (cfg.centerY : Int) - 10) →
      (handleMenuCommand e (MenuCmd.adjustTop a)).1 = e ∧
      ((handleMenuCommand e (MenuCmd.adjustTop a)).2 =
        [Msg.error ("Top edge would be beyond limit (maximum adjustment: " ++
          toString ((cfg.usableY : Int) - (-10)) ++ ")")] ∨
       (handleMenuCommand e (MenuCmd.adjustTop a)).2 =
        [Msg.error ("Top edge would be past center-10 (minimum adjustment: " ++
          toString ((cfg.usableY : Int) - ((cfg.centerY : Int) - 10)) ++ ")")]))) ∧
    ((((cfg.centerY : Int) + 10 ≤ ((cfg.usableY : Int) + cfg.usableHeight - 1) + a ∧
       ((cfg.usableY : Int) + cfg.usableHeight - 1) + a ≤ (cfg.height : Int) + 10 - 1) →
      (handleMenuCommand e (MenuCmd.adjustBottom a)).1 =
        { e with usableAreaAdjustBottom := a } ∧
      hasError (handleMenuCommand e (MenuCmd.adjustBottom a)).2 = false) ∧
     (¬ ((cfg.centerY : Int) + 10 ≤ ((cfg.usableY : Int) + cfg.usableHeight - 1) + a ∧
         ((cfg.usableY : Int) + cfg.usableHeight - 1) + a ≤ (cfg.height : Int) + 10 - 1) →
      (handleMenuCommand e (MenuCmd.adjustBottom a)).1 = e ∧
      hasError (handleMenuCommand e (MenuCmd.adjustBottom a)).2 = true)) ∧
    (((-10 ≤ (cfg.usableX : Int) - a ∧
       (cfg.usableX : Int) - a ≤ (cfg.centerX : Int) - 10) →
      (handleMenuCommand e (MenuCmd.adjustLeft a)).1 =
        { e with usableAreaAdjustLeft := a } ∧
      hasError (handleMenuCommand e (MenuCmd.adjustLeft a)).2 = false) ∧
     (¬ (-10 ≤ (cfg.usableX : Int) - a ∧
         (cfg.usableX : Int) - a ≤ (cfg.centerX : Int) - 10) →
      (handleMenuCommand e (MenuCmd.adjustLeft a)).1 = e ∧
      hasError (handleMenuCommand e (MenuCmd.adjustLeft a)).2 = true)) ∧
    ((((cfg.centerX : Int) + 10 ≤ ((cfg.usableX : Int) + cfg.usableWidth - 1) + a ∧
       ((cfg.usableX : Int) + cfg.usableWidth - 1) + a ≤ (cfg.width : Int) + 10 - 1) →
      (handleMenuCommand e (MenuCmd.adjustRight a)).1 =
        { e with usableAreaAdjustRight := a } ∧
      hasError (handleMenuCommand e (MenuCmd.adjustRight a)).2 = false) ∧
     (¬ ((cfg.centerX : Int) + 10 ≤ ((cfg.usableX : Int) + cfg.usableWidth - 1) + a ∧
         ((cfg.usableX : Int) + cfg.usableWidth - 1) + a ≤ (cfg.width : Int) + 10 - 1) →
      (handleMenuCommand e (MenuCmd.adjustRight a)).1 = e ∧
      hasError (handleMenuCommand e (MenuCmd.adjustRight a)).2 = true)) := by
  refine ⟨?_, ?_, ?_, ?_⟩
  · simp only [handleMenuCommand, hd]
    rw [toInt8_eq_self a h1 h2]
    split_ifs with hb1 hb2 hb3
    · exact ⟨fun hs => absurd hs (by omega), fun hn => ⟨rfl, Or.inl rfl⟩⟩
    · exact ⟨fun hs => absurd hs (by omega), fun hn => ⟨rfl, Or.inr rfl⟩⟩
    · exact ⟨fun hs => ⟨rfl, rfl⟩, fun hn => absurd ⟨by omega, by omega⟩ hn⟩
    · exact ⟨fun hs => ⟨rfl, rfl⟩, fun hn => absurd ⟨by omega, by omega⟩ hn⟩
  · simp only [handleMenuCommand, hd]
    rw [toInt8_eq_self a h1 h2]
    split_ifs with hb1 hb2 hb3
    · exact ⟨fun hs => absurd hs (by omega), fun hn => ⟨rfl, rfl⟩⟩
    · exact ⟨fun hs => absurd hs (by omega), fun hn => ⟨rfl, rfl⟩⟩
    · exact ⟨fun hs => ⟨rfl, rfl⟩, fun hn => absurd ⟨by omega, by omega⟩ hn⟩
    · exact ⟨fun hs => ⟨rfl, rfl⟩, fun hn => absurd ⟨by omega, by omega⟩ hn⟩
  · simp only [handleMenuCommand, hd]
    rw [toInt8_eq_self a h1 h2]
    split_ifs with hb1 hb2 hb3
    · exact ⟨fun hs => absurd hs (by omega), fun hn => ⟨rfl, rfl⟩⟩
    · exact ⟨fun hs => absurd hs (by omega), fun hn => ⟨rfl, rfl⟩⟩
    · exact ⟨fun hs => ⟨rfl, rfl⟩, fun hn => absurd ⟨by omega, by omega⟩ hn⟩
    · exact ⟨fun hs => ⟨rfl, rfl⟩, fun hn => absurd ⟨by omega, by omega⟩ hn⟩
  · simp only [handleMenuCommand, hd]
    rw [toInt8_eq_self a h1 h2]
    split_ifs with hb1 hb2 hb3
    · exact ⟨fun hs => absurd hs (by omega), fun hn => ⟨rfl, rfl⟩⟩
    · exact ⟨fun hs => absurd hs (by omega), fun hn => ⟨rfl, rfl⟩⟩
    · exact ⟨fun hs => ⟨rfl, rfl⟩, fun hn => absurd ⟨by omega, by omega⟩ hn⟩
    · exact ⟨fun hs => ⟨rfl, rfl⟩, fun hn => absurd ⟨by omega, by omega⟩ hn⟩

/-- C5 witness: ADJUST_TOP:5 on the fixture (newTop = -4, inside the band)
stores 5; ADJUST_TOP:120 (newTop = -119, beyond the outer bound) is
rejected with the engine unchanged. -/
theorem C5_adjust_edges_witness :
    ((handleMenuCommand eStart0 (MenuCmd.adjustTop 5)).1 =
      { eStart0 with usableAreaAdjustTop := 5 } ∧
     hasError (handleMenuCommand eStart0 (MenuCmd.adjustTop 5)).2 = false) ∧
    (handleMenuCommand eStart0 (MenuCmd.adjustTop 120)).1 = eStart0 :=
  ⟨(C5_adjust_edges eStart0 cfg0 5 rfl (by decide) (by decide)).1.1
      ⟨by decide, by decide⟩,
   ((C5_adjust_edges eStart0 cfg0 120 rfl (by decide) (by decide)).1.2
      (by decide)).1⟩

/-- C10: with an active display, a successful CMD:FRAME_COLOR:n always
sets imageFrameEnabled, and a successful CMD:FRAME_THICKNESS:m with
1 <= m <= 10 does too; hence a frame disabled by CMD:FRAME_OFF becomes
enabled again merely by setting its color or thickness. -/
theorem C10_frame_color_thickness_reenable (e : Engine) (cfg : DisplayConfig)
    (n m : Int) (hd : e.activeDisplay = some cfg) :
    (handleMenuCommand e (MenuCmd.frameColor n)).1.imageFrameEnabled = true ∧
    (1 ≤ m → m ≤ 10 →
      (handleMenuCommand e (MenuCmd.frameThickness m)).1.imageFrameEnabled = true) ∧
    (handleMenuCommand e MenuCmd.frameOff).1.imageFrameEnabled = false ∧
    (handleMenuCommand (handleMenuCommand e MenuCmd.frameOff).1
        (MenuCmd.frameColor n)).1.imageFrameEnabled = true ∧
    (1 ≤ m → m ≤ 10 →
      (handleMenuCommand (handleMenuCommand e MenuCmd.frameOff).1
          (MenuCmd.frameThickness m)).1.imageFrameEnabled = true) := by
  refine ⟨?_, fun hm1 hm2 => ?_, ?_, ?_, fun hm1 hm2 => ?_⟩
  · simp [handleMenuCommand, hd]
  · simp only [handleMenuCommand, hd]
    rw [if_neg (by omega)]
  · simp [handleMenuCommand, hd]
  · simp [handleMenuCommand, hd]
  · simp only [handleMenuCommand, hd]
    rw [if_neg (by omega)]

/-- C10 witness: the theorem at color 31 and thickness 2 on the fixture
engine. -/
theorem C10_frame_color_thickness_reenable_witness :
    (handleMenuCommand (handleMenuCommand eStart0 MenuCmd.frameOff).1
        (MenuCmd.frameColor 31)).1.imageFrameEnabled = true ∧
    (handleMenuCommand (handleMenuCommand eStart0 MenuCmd.frameOff).1
        (MenuCmd.frameThickness 2)).1.imageFrameEnabled = true :=
  ⟨(C10_frame_color_thickness_reenable eStart0 cfg0 31 2 rfl).2.2.2.1,
   (C10_frame_color_thickness_reenable eStart0 cfg0 31 2 rfl).2.2.2.2
     (by decide) (by decide)⟩

/-- C9 counterexample: with the engine in BITMAP_COMPLETE holding an
active display, a second BMPEnd line is not ignored: the first poll
auto-advances to WAITING_FOR_START without consuming it, and the next poll
reads the stale BMPEnd there, emits an ERROR and resets — the engine
leaves the display-selected flow and loses its active display, contrary to
the claim. -/
theorem C9_counterexample :
    (process reg0 9 eComplete0 Line.bmpEnd).2.1 = false ∧
    (process reg0 9 eComplete0 Line.bmpEnd).1.currentState =
      ProtocolState.WAITING_FOR_START ∧
    (process reg0 9 (process reg0 9 eComplete0 Line.bmpEnd).1
        Line.bmpEnd).1.currentState = ProtocolState.WAITING_FOR_DISPLAY_SELECT ∧
    (process reg0 9 (process reg0 9 eComplete0 Line.bmpEnd).1
        Line.bmpEnd).1.activeDisplay = none ∧
    hasError (process reg0 9 (process reg0 9 eComplete0 Line.bmpEnd).1
        Line.bmpEnd).2.2 = true ∧
    ProtocolState.WAITING_FOR_DISPLAY_SELECT ≠ ProtocolState.WAITING_FOR_START :=
  ⟨rfl, rfl, rfl, rfl, rfl, by decide⟩

/-- C9 (amended): after a completed transfer the Complete state
auto-advances to WAITING_FOR_START on the next poll without consuming the
pending line; a second BMPEnd line is then read in WAITING_FOR_START as an
unexpected command, the engine emits "Expected BMPStart" and error-resets
to WAITING_FOR_DISPLAY_SELECT, losing the active display, so a fresh
DISPLAY:/BMPStart sequence is needed for the next transfer. -/
theorem C9_second_bmpend_resets (registry : String → Option DisplayConfig)
    (now : Nat) (e : Engine) (cfg : DisplayConfig)
    (hs : e.currentState = ProtocolState.BITMAP_COMPLETE)
    (hd : e.activeDisplay = some cfg) :
    (process registry now e Line.bmpEnd).2.1 = false ∧
    (process registry now e Line.bmpEnd).1.currentState =
      ProtocolState.WAITING_FOR_START ∧
    (process registry now e Line.bmpEnd).1.activeDisplay = some cfg ∧
    (process registry now (process registry now e Line.bmpEnd).1
        Line.bmpEnd).1.currentState = ProtocolState.WAITING_FOR_DISPLAY_SELECT ∧
    (process registry now (process registry now e Line.bmpEnd).1
        Line.bmpEnd).1.activeDisplay = none ∧
    hasError (process registry now (process registry now e Line.bmpEnd).1
        Line.bmpEnd).2.2 = true := by
  refine ⟨?_, ?_, ?_, ?_, ?_, ?_⟩ <;>
    simp [process, hs, hd, handleComplete, handleStart, sendError, reset, hasError]

/-- C9 witness: the amended theorem at the concrete Complete fixture. -/
theorem C9_second_bmpend_resets_witness :
    (process reg0 9 eComplete0 Line.bmpEnd).1.currentState =
      ProtocolState.WAITING_FOR_START ∧
    (process reg0 9 (process reg0 9 eComplete0 Line.bmpEnd).1
        Line.bmpEnd).1.activeDisplay = none :=
  ⟨(C9_second_bmpend_resets reg0 9 eComplete0 cfg0 rfl rfl).2.1,
   (C9_second_bmpend_resets reg0 9 eComplete0 cfg0 rfl rfl).2.2.2.2.1⟩

/-- C2 counterexample: a CMD:RESET line polled in WAITING_FOR_SIZE is not
processed as a menu command and is not honored: handleSize only tests for
the SIZE: prefix and silently drops everything else, so the engine stays
in WAITING_FOR_SIZE with no output, contrary to the claim that CMD: lines
are intercepted (and RESET honored) in every line-reading state. -/
theorem C2_counterexample :
    (process reg0 7 eSize0 (Line.cmd MenuCmd.reset)).1.currentState =
      ProtocolState.WAITING_FOR_SIZE ∧
    (process reg0 7 eSize0 (Line.cmd MenuCmd.reset)).2.2 = [] ∧
    (process reg0 7 eSize0 Line.resetLine).1.currentState =
      ProtocolState.WAITING_FOR_SIZE ∧
    ProtocolState.WAITING_FOR_SIZE ≠ ProtocolState.WAITING_FOR_DISPLAY_SELECT :=
  ⟨rfl, rfl, rfl, by decide⟩

/-- C2 (amended): CMD: lines are intercepted ahead of state-specific
parsing only in WAITING_FOR_DISPLAY_SELECT and WAITING_FOR_START; in
WAITING_FOR_SIZE and WAITING_FOR_END a CMD: line or a bare RESET line is
silently dropped with the engine unchanged (RESET is only honored in the
two former states).  No menu command except RESET changes the protocol
state, and CMD:RESET forces WAITING_FOR_DISPLAY_SELECT. -/
theorem C2_cmd_interception (registry : String → Option DisplayConfig)
    (now : Nat) (e : Engine) (cfg : DisplayConfig) (c : MenuCmd) :
    (e.currentState = ProtocolState.WAITING_FOR_DISPLAY_SELECT →
      (process registry now e (Line.cmd c)).1 =
        (handleMenuCommand { e with lastActivity := now } c).1 ∧
      (process registry now e (Line.cmd c)).2.2 =
        (handleMenuCommand { e with lastActivity := now } c).2) ∧
    (e.currentState = ProtocolState.WAITING_FOR_START →
      e.activeDisplay = some cfg →
      (process registry now e (Line.cmd c)).1 =
        (handleMenuCommand { e with lastActivity := now } c).1 ∧
      (process registry now e (Line.cmd c)).2.2 =
        (handleMenuCommand { e with lastActivity := now } c).2) ∧
    (e.currentState = ProtocolState.WAITING_FOR_SIZE →
      (process registry now e (Line.cmd c)).1 = { e with lastActivity := now } ∧
      (process registry now e (Line.cmd c)).2.2 = [] ∧
      (process registry now e Line.resetLine).1 = { e with lastActivity := now } ∧
      (process registry now e Line.resetLine).2.2 = []) ∧
    (e.currentState = ProtocolState.WAITING_FOR_END →
      (process registry now e (Line.cmd c)).1 = { e with lastActivity := now } ∧
      (process registry now e (Line.cmd c)).2.2 = [] ∧
      (process registry now e Line.resetLine).1 = { e with lastActivity := now } ∧
      (process registry now e Line.resetLine).2.2 = []) ∧
    (c ≠ MenuCmd.reset →
      (handleMenuCommand e c).1.currentState = e.currentState) ∧
    (handleMenuCommand e MenuCmd.reset).1.currentState =
      ProtocolState.WAITING_FOR_DISPLAY_SELECT := by
  refine ⟨fun hs => ?_, fun hs hd => ?_, fun hs => ?_, fun hs => ?_, fun hc => ?_, ?_⟩
  · simp [process, hs, handleDisplaySelect]
  · simp [process, hs, handleStart, hd]
  · simp [process, hs, handleSize]
  · simp [process, hs, handleEnd]
  · cases c
    case reset => exact absurd rfl hc
    all_goals cases hA : e.activeDisplay
    all_goals simp [handleMenuCommand, hA, reset]
    all_goals first
      | rfl
      | (split_ifs <;> rfl)
  · simp [handleMenuCommand, reset]

/-- C2 witness: the amended theorem at a concrete CMD:LIST in the select
state and the dropped CMD:RESET in the size state. -/
theorem C2_cmd_interception_witness :
    (process reg0 7 eSize0 (Line.cmd MenuCmd.reset)).1 =
      { eSize0 with lastActivity := 7 } ∧
    (handleMenuCommand eStart0 MenuCmd.list).1.currentState =
      eStart0.currentState :=
  ⟨((C2_cmd_interception reg0 7 eSize0 cfg0 MenuCmd.reset).2.2.1 rfl).1,
   (C2_cmd_interception reg0 7 eStart0 cfg0 MenuCmd.list).2.2.2.2.1
     (by decide)⟩

/-- getD of a map over range evaluates the function below the length. -/
theorem getD_range_map {α : Type} (f : Nat → α) (n i : Nat) (d : α)
    (hi : i < n) : ((List.range n).map f).getD i d = f i := by
  rw [List.getD_eq_getElem?_getD, List.getElem?_map, List.getElem?_range hi]
  rfl

/-- Row-major index bound: r < h and c < w give r*w + c < w*h. -/
theorem rowMajor_lt (r c w h : Nat) (hr : r < h) (hc : c < w) :
    r * w + c < w * h :=
  calc r * w + c < r * w + w := by omega
  _ = (r + 1) * w := (Nat.succ_mul r w).symm
  _ ≤ h * w := Nat.mul_le_mul_right w hr
  _ = w * h := Nat.mul_comm h w

/-- C8: a successful captureFromBuffer(src, w, h, offsetX, offsetY)
followed by restoreToDisplay(driver) returns true and issues, for every
row r < h and column c < w whose target (offsetX+c, offsetY+r) lies inside
the driver's reported width and height, exactly the draw of pixel
src[r*w+c] at that target; only such in-range draws are issued (out-of-
range pixels are skipped, not an error); restoreToDisplay returns false
iff no snapshot exists, and restoring does not consume the snapshot (the
store is unchanged and a second restore succeeds again). -/
theorem C8_snapshot_roundtrip (allocOk : Bool) (src : List Nat)
    (w h : Nat) (ox oy : Int) (st : DisplaySnapshot.Store) (tftW tftH : Nat)
    (hcap : (DisplaySnapshot.captureFromBuffer allocOk src w h ox oy st).1 = true) :
    (DisplaySnapshot.restoreToDisplay tftW tftH
        (DisplaySnapshot.captureFromBuffer allocOk src w h ox oy st).2).1 = true ∧
    (DisplaySnapshot.restoreToDisplay tftW tftH
        (DisplaySnapshot.captureFromBuffer allocOk src w h ox oy st).2).2.2 =
      (DisplaySnapshot.captureFromBuffer allocOk src w h ox oy st).2 ∧
    (DisplaySnapshot.restoreToDisplay tftW tftH
        (DisplaySnapshot.restoreToDisplay tftW tftH
          (DisplaySnapshot.captureFromBuffer allocOk src w h ox oy st).2).2.2).1 = true ∧
    (∀ r c : Nat, r < h → c < w →
      0 ≤ ox + (c : Int) → ox + (c : Int) < (tftW : Int) →
      0 ≤ oy + (r : Int) → oy + (r : Int) < (tftH : Int) →
      (ox + (c : Int), oy + (r : Int), src.getD (r * w + c) 0) ∈
        (DisplaySnapshot.restoreToDisplay tftW tftH
          (DisplaySnapshot.captureFromBuffer allocOk src w h ox oy st).2).2.1) ∧
    (∀ x y : Int, ∀ p : Nat,
      (x, y, p) ∈ (DisplaySnapshot.restoreToDisplay tftW tftH
          (DisplaySnapshot.captureFromBuffer allocOk src w h ox oy st).2).2.1 →
      0 ≤ x ∧ x < (tftW : Int) ∧ 0 ≤ y ∧ y < (tftH : Int) ∧
      ∃ r c : Nat, r < h ∧ c < w ∧ x = ox + (c : Int) ∧ y = oy + (r : Int) ∧
        p = src.getD (r * w + c) 0) ∧
    (∀ s : DisplaySnapshot.Store,
      (DisplaySnapshot.restoreToDisplay tftW tftH s).1 = false ↔ s = none) := by
  have hst2 : (DisplaySnapshot.captureFromBuffer allocOk src w h ox oy st).2 =
      some
        { width := w
          height := h
          offsetX := ox
          offsetY := oy
          pixels := (List.range (w * h)).map fun i => src.getD i 0 } := by
    simp only [DisplaySnapshot.captureFromBuffer] at hcap ⊢
    split_ifs at hcap ⊢
    simp_all
  rw [hst2]
  refine ⟨rfl, rfl, rfl, ?_, ?_, ?_⟩
  · intro r c hr hc hx0 hx1 hy0 hy1
    simp only [DisplaySnapshot.restoreToDisplay, List.mem_flatMap, List.mem_filterMap,
      List.mem_range]
    refine ⟨r, hr, c, hc, ?_⟩
    rw [if_pos ⟨hx0, hx1, hy0, hy1⟩]
    rw [getD_range_map _ _ _ _ (rowMajor_lt r c w h hr hc)]
  · intro x y p hmem
    simp only [DisplaySnapshot.restoreToDisplay, List.mem_flatMap, List.mem_filterMap,
      List.mem_range] at hmem
    obtain ⟨r, hr, c, hc, hf⟩ := hmem
    by_cases hin : 0 ≤ ox + (c : Int) ∧ ox + (c : Int) < (tftW : Int) ∧
        0 ≤ oy + (r : Int) ∧ oy + (r : Int) < (tftH : Int)
    · rw [if_pos hin, Option.some.injEq, Prod.mk.injEq, Prod.mk.injEq] at hf
      obtain ⟨hfx, hfy, hfp⟩ := hf
      subst hfx
      subst hfy
      subst hfp
      refine ⟨hin.1, hin.2.1, hin.2.2.1, hin.2.2.2, r, c, hr, hc, rfl, rfl, ?_⟩
      rw [getD_range_map _ _ _ _ (rowMajor_lt r c w h hr hc)]
    · rw [if_neg hin] at hf
      cases hf
  · intro s
    cases s <;> simp [DisplaySnapshot.restoreToDisplay]

/-- C8 witness: the theorem at the concrete 2x2 capture at offset (-1, 0),
where the first column is clipped by the 128x160 driver. -/
theorem C8_snapshot_roundtrip_witness :
    (DisplaySnapshot.restoreToDisplay 128 160
        (DisplaySnapshot.captureFromBuffer true [1, 2, 3, 4] 2 2 (-1) 0 none).2).1 = true ∧
    ((0 : Int), (0 : Int), 2) ∈
      (DisplaySnapshot.restoreToDisplay 128 160
        (DisplaySnapshot.captureFromBuffer true [1, 2, 3, 4] 2 2 (-1) 0 none).2).2.1 :=
  ⟨(C8_snapshot_roundtrip true [1, 2, 3, 4] 2 2 (-1) 0 none 128 160 rfl).1,
   by
    have h := (C8_snapshot_roundtrip true [1, 2, 3, 4] 2 2 (-1) 0 none 128 160 rfl).2.2.2.1
      0 1 (by decide) (by decide) (by decide) (by decide) (by decide) (by decide)
    simpa using h⟩

end ST7735

